import Mathlib

/-!
Verification of the `hlhook` façade (`src/lib.rs`).

The crate wraps the external `dobby-rs` code-patching engine.  Its whole
surface is one function, `install_hook`, and three macros: `hook!` (two
arities), `make_trampoline!` and `get_trampoline!`.  We embed each of these
shallowly:

* a raw `dobby_rs::Address` is a natural number;
* a typed callable `F` is, per the crate's caller-asserted precondition,
  function-pointer-shaped: its entire bit pattern is one code address, which
  the embedding carries explicitly together with a phantom signature tag;
* the engine primitive `dobby_rs::hook` is an external collaborator, so it is
  a parameter of the embedded installer;
* the `static mut` trampoline slots become explicit state that the embedded
  macro expansions read and write;
* a Rust panic becomes an explicit `PanicOr.panic` outcome carrying the
  diagnostic message.
-/

namespace Hlhook

/-- A raw code address (`dobby_rs::Address`): an opaque pointer-sized handle. -/
abbrev Address := Nat

/-- A typed function value of signature `σ`.  The crate requires `F : Copy` and
(caller-asserted) that `F` is function-pointer-shaped, so the value's entire
bit pattern is exactly one code address; `σ` is a phantom signature tag. -/
structure FnPtr (σ : Type) where
  addr : Address
deriving DecidableEq, Repr

/-- `std::mem::transmute_copy` from a typed function value to a raw address:
a pure bit-copy, no indirection. -/
def transmuteToAddr {σ : Type} (f : FnPtr σ) : Address := f.addr

/-- `std::mem::transmute_copy` from a raw address back to a typed function
value: the same bits, reinterpreted under signature `σ`. -/
def transmuteToFn (σ : Type) (a : Address) : FnPtr σ := FnPtr.mk a

/-- `install_hook<F: Copy>(target, replacement)` from `src/lib.rs`:
transmute both operands to raw addresses, call `dobby_rs::hook` (the `?`
operator propagates its error), and transmute the returned trampoline address
back to `F`.  The external engine primitive is passed as `engine`. -/
def install_hook {σ E : Type} (engine : Address → Address → Except E Address)
    (target replacement : FnPtr σ) : Except E (FnPtr σ) :=
  let target_addr : Address := transmuteToAddr target
  let replacement_addr : Address := transmuteToAddr replacement
  match engine target_addr replacement_addr with
  | Except.error e => Except.error e
  | Except.ok trampoline_addr => Except.ok (transmuteToFn σ trampoline_addr)

/-- One invocation of the engine primitive: the two addresses it was given,
in order. -/
structure EngineCall where
  target : Address
  replacement : Address
deriving DecidableEq, Repr

/-- `install_hook` again, with the engine's effect on the outside world made
explicit: the engine is a state transformer, and the state is threaded through
the body exactly where the source performs its single `dobby_rs::hook` call. -/
def install_hook_traced {σ E S : Type}
    (engine : Address → Address → S → Except E Address × S)
    (target replacement : FnPtr σ) (s : S) : Except E (FnPtr σ) × S :=
  let target_addr : Address := transmuteToAddr target
  let replacement_addr : Address := transmuteToAddr replacement
  match engine target_addr replacement_addr s with
  | (Except.error e, s1) => (Except.error e, s1)
  | (Except.ok trampoline_addr, s1) =>
      (Except.ok (transmuteToFn σ trampoline_addr), s1)

/-- Instrumentation of a pure engine: record every invocation, in order. -/
def loggingEngine {E : Type} (engine : Address → Address → Except E Address) :
    Address → Address → List EngineCall → Except E Address × List EngineCall :=
  fun a b log => (engine a b, log ++ [EngineCall.mk a b])

/-- The Rust cast `f as F` on a function-pointer-shaped value: the bits (one
code address) are unchanged, only the static type changes. -/
def fnCast (σ : Type) {τ : Type} (f : FnPtr τ) : FnPtr σ := FnPtr.mk f.addr

/-- Expansion of the three-argument `hook!($t, $target, $replacement)` macro:
`install_hook($target as $t, $replacement as $t)`. -/
def hook3 (σ : Type) {τ₁ τ₂ E : Type}
    (engine : Address → Address → Except E Address)
    (target : FnPtr τ₁) (replacement : FnPtr τ₂) : Except E (FnPtr σ) :=
  install_hook engine (fnCast σ target) (fnCast σ replacement)

/-- Modelled from the spec (§4.3, three-argument form): call the installer
with both operands cast to `F` and return its `Result` unchanged. -/
def hook3Spec (σ : Type) {τ₁ τ₂ E : Type}
    (engine : Address → Address → Except E Address)
    (target : FnPtr τ₁) (replacement : FnPtr τ₂) : Except E (FnPtr σ) :=
  install_hook engine (fnCast σ target) (fnCast σ replacement)

/-- Expansion of the four-argument `hook!($t, $trampoline, $target,
$replacement)` macro: `install_hook($target as $t, $replacement as $t)
.map(|t_ptr| { $trampoline = Some(t_ptr); })`.  The write to the static slot
`$trampoline` is made explicit: the macro receives the slot's current content
and returns its content afterwards.  `Result::map` runs the closure only on
`Ok`, so on `Err` the slot is left as it was. -/
def hook4 (σ : Type) {τ₁ τ₂ E : Type}
    (engine : Address → Address → Except E Address)
    (target : FnPtr τ₁) (replacement : FnPtr τ₂)
    (slot : Option (FnPtr σ)) : Except E Unit × Option (FnPtr σ) :=
  match install_hook engine (fnCast σ target) (fnCast σ replacement) with
  | Except.ok t_ptr => (Except.ok (), some t_ptr)
  | Except.error e => (Except.error e, slot)

/-- Outcome of code that may panic: a fatal diagnostic, or a value. -/
inductive PanicOr (α : Type) where
  | panic (msg : String)
  | value (v : α)
deriving DecidableEq, Repr

/-- Expansion of `get_trampoline!($name)`:
`$name.expect("trampoline not set")`.  `Option::expect` yields the contained
value, or panics with precisely the given message. -/
def get_trampoline {σ : Type} (slot : Option (FnPtr σ)) : PanicOr (FnPtr σ) :=
  match slot with
  | none => PanicOr.panic ("trampoline not set")
  | some f => PanicOr.value f

/-- `msg` mentions `name`: the name occurs inside the message. -/
abbrev mentions (name msg : String) : Prop := name.data <:+: msg.data

/-- The program image's namespace of `static` items, by name: `none` at a name
means no static of that name is declared; `some c` means a declared slot whose
bit-content is `c` (an `Option` of one code address, since a slot holds an
`Option<fn-ptr>`). -/
abbrev Globals := String → Option (Option Address)

/-- Expansion of `make_trampoline!($t, $name)`:
`static mut $name: Option<$t> = None;` — declares the static `$name`,
initialized to `None`, in the program image's namespace. -/
def make_trampoline (name : String) (g : Globals) : Globals :=
  fun n => if n = name then some none else g n

/-- The single store the four-argument `hook!` performs on success,
`$trampoline = Some(t_ptr);`, as an update of the namespace of statics. -/
def writeSlot (name : String) (a : Address) (g : Globals) : Globals :=
  fun n => if n = name then some (some a) else g n

/-- The operations of the façade, as they act on one fixed trampoline slot.
`declareOther` is `make_trampoline!` declaring a different slot (redeclaring
the same static name would not compile). -/
inductive FacadeOp (σ E : Type) where
  | installOp (engine : Address → Address → Except E Address) (t r : FnPtr σ)
  | hook3Op (engine : Address → Address → Except E Address) (t r : FnPtr σ)
  | hook4Op (engine : Address → Address → Except E Address) (t r : FnPtr σ)
  | declareOther
  | getOp

/-- Effect of one façade operation on the slot's content.  `install_hook` and
the three-argument `hook!` contain no slot access at all; `get_trampoline!`
only reads; the four-argument `hook!` is `hook4`. -/
def slotStep {σ E : Type} (slot : Option (FnPtr σ)) :
    FacadeOp σ E → Option (FnPtr σ)
  | FacadeOp.installOp _ _ _ => slot
  | FacadeOp.hook3Op _ _ _ => slot
  | FacadeOp.hook4Op engine t r => (hook4 σ engine t r slot).2
  | FacadeOp.declareOther => slot
  | FacadeOp.getOp => slot

/-- A concrete engine that always succeeds with trampoline address `a`. -/
def okEngine (a : Address) : Address → Address → Except Nat Address :=
  fun _ _ => Except.ok a

/-- A concrete engine that always fails with error `e`. -/
def errEngine (e : Nat) : Address → Address → Except Nat Address :=
  fun _ _ => Except.error e

/-- Claim C1: `install_hook` bit-reinterprets `target` and `replacement` to
raw addresses, invokes the engine's hook primitive exactly once with those two
addresses (target first, replacement second), returns `Ok` of the
bit-reinterpretation of the engine's `Ok` value back to `F`, and performs no
other computation: its result is exactly the mapped engine reply, and the
traced run records exactly one engine call. -/
theorem install_hook_engine_once {σ E : Type}
    (engine : Address → Address → Except E Address)
    (target replacement : FnPtr σ) :
    install_hook engine target replacement =
      (engine (transmuteToAddr target) (transmuteToAddr replacement)).map
        (transmuteToFn σ) ∧
    install_hook_traced (loggingEngine engine) target replacement [] =
      (install_hook engine target replacement,
        [EngineCall.mk (transmuteToAddr target) (transmuteToAddr replacement)]) := by
  constructor <;>
    cases h : engine (transmuteToAddr target) (transmuteToAddr replacement) <;>
      simp [install_hook, install_hook_traced, loggingEngine, Except.map, h]

/-- Claim C2 (counterexample): for the slot `UNSET_SLOT` of the spec's
scenario S4, reading the empty slot panics with the fixed message
`trampoline not set`, and that diagnostic does not mention the slot's name. -/
theorem get_trampoline_message_no_slot_name :
    get_trampoline (σ := Unit) none = PanicOr.panic ("trampoline not set") ∧
    ¬ mentions ("UNSET_SLOT") ("trampoline not set") := by
  constructor
  · rfl
  · decide

/-- Claim C2 (amended): reading an empty slot aborts with the fixed diagnostic
`trampoline not set`, which describes the condition but not the slot's name;
when the slot is populated with a callable, `get_trampoline!` yields exactly
that callable. -/
theorem get_trampoline_spec {σ : Type} (f : FnPtr σ) :
    get_trampoline (σ := σ) none = PanicOr.panic ("trampoline not set") ∧
    get_trampoline (some f) = PanicOr.value f :=
  ⟨rfl, rfl⟩

/-- Claim C3: the four-argument `hook!` behaves as the three-argument form
except that on success it writes the returned trampoline into the slot and
returns `Ok(())`; its value component is the installer's result with the
trampoline dropped, and it fails exactly when (and with exactly the error
with which) the three-argument form fails. -/
theorem hook4_spec {σ τ₁ τ₂ E : Type}
    (engine : Address → Address → Except E Address)
    (target : FnPtr τ₁) (replacement : FnPtr τ₂) (slot : Option (FnPtr σ)) :
    (hook4 σ engine target replacement slot).1 =
      (hook3 σ engine target replacement).map (fun _ => ()) ∧
    (∀ t_ptr, hook3 σ engine target replacement = Except.ok t_ptr →
      hook4 σ engine target replacement slot = (Except.ok (), some t_ptr)) ∧
    (∀ e, (hook4 σ engine target replacement slot).1 = Except.error e ↔
      hook3 σ engine target replacement = Except.error e) := by
  refine ⟨?_, ?_, ?_⟩ <;>
    cases h : install_hook engine (fnCast σ target) (fnCast σ replacement) <;>
      simp [hook4, hook3, Except.map, h]

/-- Claim C3 (witness): at a concrete succeeding engine, the four-argument
form publishes the trampoline and returns `Ok(())`. -/
theorem hook4_spec_witness :
    hook4 Unit (okEngine 42) (FnPtr.mk (σ := Unit) 1) (FnPtr.mk (σ := Unit) 2)
        none = (Except.ok (), some (FnPtr.mk 42)) :=
  (hook4_spec (okEngine 42) (FnPtr.mk (σ := Unit) 1) (FnPtr.mk (σ := Unit) 2)
    none).2.1 (FnPtr.mk 42) rfl

/-- Claim C4: `install_hook` returns `Err(e)` exactly when the engine's hook
primitive returns `Err(e)`, with `e` unchanged, and never returns an error the
engine did not produce. -/
theorem install_hook_error_transparent {σ E : Type}
    (engine : Address → Address → Except E Address)
    (target replacement : FnPtr σ) (e : E) :
    install_hook engine target replacement = Except.error e ↔
      engine (transmuteToAddr target) (transmuteToAddr replacement) =
        Except.error e := by
  cases h : engine (transmuteToAddr target) (transmuteToAddr replacement) <;>
    simp [install_hook, h]

/-- Claim C5: the three-argument `hook!` form equals, as a function of the
engine's reply, `install_hook` applied to both operands cast to `F`, returning
that installer's `Result` unchanged. -/
theorem hook3_refines_spec {σ τ₁ τ₂ E : Type}
    (engine : Address → Address → Except E Address)
    (target : FnPtr τ₁) (replacement : FnPtr τ₂) :
    hook3 σ engine target replacement = hook3Spec σ engine target replacement ∧
    hook3 σ engine target replacement =
      install_hook engine (fnCast σ target) (fnCast σ replacement) :=
  ⟨rfl, rfl⟩

/-- Claim C6: the conversion between a typed callable and its raw address is a
pure bit-reinterpretation in both directions — the round trips are identities
— and the `F` value `install_hook` returns on success is bit-equal to the
trampoline address the engine produced. -/
theorem transmute_bit_identity {σ E : Type}
    (engine : Address → Address → Except E Address)
    (target replacement f : FnPtr σ) (a : Address) :
    transmuteToFn σ (transmuteToAddr f) = f ∧
    transmuteToAddr (transmuteToFn σ a) = a ∧
    (install_hook engine target replacement = Except.ok f →
      engine (transmuteToAddr target) (transmuteToAddr replacement) =
        Except.ok (transmuteToAddr f)) := by
  refine ⟨rfl, rfl, ?_⟩
  cases h : engine (transmuteToAddr target) (transmuteToAddr replacement) <;>
    simp [install_hook, transmuteToFn, h]
  intro hf
  rw [← hf]
  rfl

/-- Claim C6 (witness): with an engine replying trampoline address `42`, the
returned typed value is bit-equal to `42`. -/
theorem transmute_bit_identity_witness :
    okEngine 42 (transmuteToAddr (FnPtr.mk (σ := Unit) 1))
        (transmuteToAddr (FnPtr.mk (σ := Unit) 2)) =
      Except.ok (transmuteToAddr (FnPtr.mk (σ := Unit) 42)) :=
  (transmute_bit_identity (okEngine 42) (FnPtr.mk 1) (FnPtr.mk 2)
    (FnPtr.mk 42) 0).2.2 rfl

/-- Claim C7: `make_trampoline!` introduces a process-wide cell under the
given name, initialized empty (`None`), reachable by name lookup; later slot
stores and declarations of other slots never remove it, so it lives as long
as the program image. -/
theorem make_trampoline_spec (name other : String) (g : Globals) (a : Address) :
    make_trampoline name g name = some none ∧
    (∀ m : String, writeSlot m a (make_trampoline name g) name ≠ none) ∧
    make_trampoline other (make_trampoline name g) name = some none := by
  refine ⟨?_, ?_, ?_⟩
  · simp [make_trampoline]
  · intro m
    by_cases hm : name = m <;> simp [writeSlot, make_trampoline, hm]
  · by_cases ho : name = other <;> simp [make_trampoline, ho]

/-- Claim C7 (witness): a concrete declaration of slot `SLOT` is empty and
survives a write and a declaration of another slot `OTHER`. -/
theorem make_trampoline_spec_witness :
    make_trampoline ("SLOT") (fun _ => none) ("SLOT") = some none ∧
    (∀ m : String,
      writeSlot m 7 (make_trampoline ("SLOT") (fun _ => none)) ("SLOT") ≠
        none) ∧
    make_trampoline ("OTHER") (make_trampoline ("SLOT") (fun _ => none))
        ("SLOT") = some none :=
  make_trampoline_spec ("SLOT") ("OTHER") (fun _ => none) 7

/-- Claim C8: if the slot is empty and the four-argument `hook!` returns an
error, the slot is still empty afterwards. -/
theorem hook4_error_leaves_slot_empty {σ τ₁ τ₂ E : Type}
    (engine : Address → Address → Except E Address)
    (target : FnPtr τ₁) (replacement : FnPtr τ₂) (e : E)
    (h : (hook4 σ engine target replacement none).1 = Except.error e) :
    (hook4 σ engine target replacement none).2 = none := by
  cases hi : install_hook engine (fnCast σ target) (fnCast σ replacement) <;>
    simp [hook4, hi] at h ⊢

/-- Claim C8 (witness): a concrete failing install leaves a concrete empty
slot empty. -/
theorem hook4_error_leaves_slot_empty_witness :
    (hook4 Unit (errEngine 7) (FnPtr.mk (σ := Unit) 1)
        (FnPtr.mk (σ := Unit) 2) none).2 = none :=
  hook4_error_leaves_slot_empty (errEngine 7) (FnPtr.mk 1) (FnPtr.mk 2) 7 rfl

/-- Claim C9: once a slot is populated, no façade operation — `install_hook`,
either arity of `hook!`, a `make_trampoline!` declaration, or
`get_trampoline!` — ever returns it to the empty state: after any sequence of
operations it is still populated. -/
theorem populated_stays_populated {σ E : Type} (ops : List (FacadeOp σ E))
    (slot : Option (FnPtr σ)) (h : slot.isSome = true) :
    (ops.foldl slotStep slot).isSome = true := by
  induction ops generalizing slot with
  | nil => exact h
  | cons op ops ih =>
    apply ih
    cases op with
    | hook4Op engine t r =>
      cases hi : install_hook engine (fnCast σ t) (fnCast σ r) <;>
        simp [slotStep, hook4, hi, h]
    | installOp engine t r => exact h
    | hook3Op engine t r => exact h
    | declareOther => exact h
    | getOp => exact h

/-- Claim C9 (witness): a concrete populated slot stays populated across a
concrete run of every kind of operation, including a failing and a succeeding
four-argument `hook!`. -/
theorem populated_stays_populated_witness :
    (([FacadeOp.installOp (okEngine 3) (FnPtr.mk 1) (FnPtr.mk 2),
       FacadeOp.hook4Op (errEngine 7) (FnPtr.mk 1) (FnPtr.mk 2),
       FacadeOp.getOp,
       FacadeOp.declareOther,
       FacadeOp.hook4Op (okEngine 9) (FnPtr.mk 1) (FnPtr.mk 2),
       FacadeOp.hook3Op (okEngine 3) (FnPtr.mk 1) (FnPtr.mk 2)] :
      List (FacadeOp Unit Nat)).foldl slotStep
        (some (FnPtr.mk 5))).isSome = true :=
  populated_stays_populated _ (some (FnPtr.mk 5)) rfl

/-- Claim C10: whatever the slot held before — empty or already populated —
if the engine call inside the four-argument `hook!` fails, the slot holds
exactly the same value afterwards. -/
theorem hook4_error_frames_slot {σ τ₁ τ₂ E : Type}
    (engine : Address → Address → Except E Address)
    (target : FnPtr τ₁) (replacement : FnPtr τ₂)
    (slot : Option (FnPtr σ)) (e : E)
    (h : (hook4 σ engine target replacement slot).1 = Except.error e) :
    (hook4 σ engine target replacement slot).2 = slot := by
  cases hi : install_hook engine (fnCast σ target) (fnCast σ replacement) <;>
    simp [hook4, hi] at h ⊢

/-- Claim C10 (witness): a concrete failing install leaves a concrete
populated slot holding exactly its prior value. -/
theorem hook4_error_frames_slot_witness :
    (hook4 Unit (errEngine 7) (FnPtr.mk (σ := Unit) 1)
        (FnPtr.mk (σ := Unit) 2) (some (FnPtr.mk 9))).2 =
      some (FnPtr.mk 9) :=
  hook4_error_frames_slot (errEngine 7) (FnPtr.mk 1) (FnPtr.mk 2)
    (some (FnPtr.mk 9)) 7 rfl

end Hlhook
